import Mathlib

/-!
Verification of the value-coercion and round-trip serialization core of the
highcharts option-binding layer: the coercive property setters, the
untrimmed-dict / trim pipeline, and the from_dict factories of
`PaneBackground`, `Pane` (src/highcharts/pane.py), `AxisMarker`
(src/highcharts/axes/markers.py) and `GenericTypeOptions`
(src/highcharts/plot_options/generic.py).

Python values flowing through these setters are modelled by the inductive
type `Val`; Python exceptions by `PyErr` together with `Except`.  Parts of
the repository that the claims depend on but that are not among the source
files (the `HighchartsMeta.trim_dict` / `to_dict` machinery of
metaclasses.py, the `constants` defaults, the `Gradient` / `Pattern`
utility classes and the `class_sensitive` / `validate_types` decorators)
are modelled from the specification; each such definition carries a doc
comment starting with `Modelled from the spec:`.  The third-party
`validator_collection` validators are modelled from their documented
behaviour.
-/

namespace HC

/-- A Python value as it flows through the option classes: the `None`
sentinel, booleans, numbers (Python ints/floats/Decimals collapsed to `Rat`,
since the code never does arithmetic on them), strings, lists, plain dicts
(ordered association lists, as Python dicts are insertion ordered), the
`EnforcedNullType` sentinel of `constants`, and instances of the utility /
option classes: `Gradient`, `Pattern`, `AnimationOptions` and other
configuration nodes, each carrying the mapping of its own state. -/
inductive Val where
  | none
  | bool (b : Bool)
  | num (q : Rat)
  | str (s : String)
  | list (xs : List Val)
  | dict (xs : List (String × Val))
  | enforcedNull
  | gradient (xs : List (String × Val))
  | pattern (xs : List (String × Val))
  | anim (xs : List (String × Val))
  | node (cls : String) (xs : List (String × Val))

/-- Python exceptions raised by the embedded code: `ValueError` (including
the `validator_collection` errors `EmptyValueError` and `CannotCoerceError`,
which subclass it), the library's own `HighchartsValueError` (which carries
the offending value, mirroring the f-string interpolation of the value into
the message), `AttributeError` (assignment to a property with no setter)
and `TypeError`. -/
inductive PyErr where
  | valueError (msg : String)
  | highchartsValueError (msg : String) (received : Val)
  | attributeError (msg : String)
  | typeError (msg : String)

/-- Python truthiness of a `Val`: `None`, `False`, `0`, the empty string,
the empty list and the empty dict are falsy; instances of classes (which
define no `__bool__` / `__len__`) are truthy. -/
def falsy : Val → Bool
  | Val.none => true
  | Val.bool b => !b
  | Val.num q => q == 0
  | Val.str s => s == ""
  | Val.list xs => xs.isEmpty
  | Val.dict xs => xs.isEmpty
  | _ => false

/-- Python `key in d` for a dict modelled as an association list. -/
def hasKey (xs : List (String × Val)) (k : String) : Bool :=
  xs.any (fun kv => kv.1 == k)

/-- Whether the second character list occurs at the head of the first. -/
def leadsWithChars : List Char → List Char → Bool
  | _, [] => true
  | [], _ :: _ => false
  | a :: as, b :: bs => a == b && leadsWithChars as bs

/-- Substring containment on character lists. -/
def containsChars (pat : List Char) : List Char → Bool
  | [] => leadsWithChars [] pat
  | c :: rest =>
      if leadsWithChars (c :: rest) pat then true
      else containsChars pat rest

/-- Python `sub in s` for strings: substring containment. -/
def containsSub (s sub : String) : Bool :=
  containsChars sub.data s.data

/-- Python `str.lower()`, character by character. -/
def toLowerStr (s : String) : String :=
  String.mk (s.data.map Char.toLower)

end HC

namespace validators

open HC

/-- The third-party `validator_collection` `validators.string`, modelled
from its documented behaviour: a falsy value (`None` or the empty string)
returns `None` when `allow_empty` is set and raises `EmptyValueError` (a
`ValueError`) otherwise; a non-string raises `CannotCoerceError` (a
`ValueError`); any other string is returned unchanged. -/
def string (allowEmpty : Bool) : Val → Except PyErr Val
  | Val.none =>
      if allowEmpty then Except.ok Val.none
      else Except.error (PyErr.valueError "value was empty")
  | Val.str s =>
      if s = "" then
        if allowEmpty then Except.ok Val.none
        else Except.error (PyErr.valueError "value was empty")
      else Except.ok (Val.str s)
  | _ => Except.error (PyErr.valueError "cannot coerce value to str")

/-- Splitting a character list at its first decimal point, when any. -/
def splitAtDot : List Char → List Char × Option (List Char)
  | [] => ([], Option.none)
  | c :: rest =>
      if c = '.' then ([], some rest)
      else
        let r := splitAtDot rest
        (c :: r.1, r.2)

/-- The natural number denoted by a list of decimal digits. -/
def digitsToNat (cs : List Char) : Nat :=
  cs.foldl (fun n c => n * 10 + (c.toNat - 48)) 0

/-- Parse of a plain decimal literal (optional sign, digits, optional
fractional part), the fragment of Python float coercion exercised by
numeric strings. -/
def parseDecimal (s : String) : Option Rat :=
  let core (cs : List Char) : Option Rat :=
    match splitAtDot cs with
    | (intPart, Option.none) =>
        if intPart ≠ [] ∧ intPart.all Char.isDigit then
          some ((digitsToNat intPart : Nat) : Rat)
        else Option.none
    | (intPart, some fracPart) =>
        if intPart ≠ [] ∧ fracPart ≠ [] ∧ intPart.all Char.isDigit ∧
            fracPart.all Char.isDigit then
          some (((digitsToNat intPart : Nat) : Rat) +
                ((digitsToNat fracPart : Nat) : Rat) / ((10 : Rat) ^ fracPart.length))
        else Option.none
  match s.data with
  | '-' :: rest => (core rest).map (fun q => -q)
  | cs => core cs

/-- The third-party `validator_collection` `validators.numeric`, modelled
from its documented behaviour: `None` returns `None` when `allow_empty` is
set and raises `EmptyValueError` otherwise; numbers (and booleans, which
are ints in Python) pass through; numeric strings are coerced; anything
else raises `CannotCoerceError` (a `ValueError`). -/
def numeric (allowEmpty : Bool) : Val → Except PyErr Val
  | Val.none =>
      if allowEmpty then Except.ok Val.none
      else Except.error (PyErr.valueError "value was empty")
  | Val.num q => Except.ok (Val.num q)
  | Val.bool b => Except.ok (Val.num (if b then 1 else 0))
  | Val.str s =>
      match parseDecimal s with
      | some q => Except.ok (Val.num q)
      | Option.none => Except.error (PyErr.valueError "cannot coerce value to numeric")
  | _ => Except.error (PyErr.valueError "cannot coerce value to numeric")

/-- The third-party `validator_collection` `validators.dict`, modelled from
its documented behaviour: `None` returns `None` when `allow_empty` is set;
dicts pass through; anything else raises `CannotCoerceError`. -/
def dict (allowEmpty : Bool) : Val → Except PyErr Val
  | Val.none =>
      if allowEmpty then Except.ok Val.none
      else Except.error (PyErr.valueError "value was empty")
  | Val.dict xs => Except.ok (Val.dict xs)
  | _ => Except.error (PyErr.valueError "cannot coerce value to dict")

/-- The third-party `validator_collection` `validators.float` with a
`minimum` and `maximum` bound, modelled from its documented behaviour. -/
def float01 (allowEmpty : Bool) : Val → Except PyErr Val
  | Val.none =>
      if allowEmpty then Except.ok Val.none
      else Except.error (PyErr.valueError "value was empty")
  | Val.num q =>
      if 0 ≤ q ∧ q ≤ 1 then Except.ok (Val.num q)
      else Except.error (PyErr.valueError "value outside bounds")
  | _ => Except.error (PyErr.valueError "cannot coerce value to float")

/-- The third-party `validator_collection` `validators.integer` with
`minimum = 0`, modelled from its documented behaviour: integral numbers at
least the minimum pass; others raise. -/
def integerMin0 (allowEmpty : Bool) : Val → Except PyErr Val
  | Val.none =>
      if allowEmpty then Except.ok Val.none
      else Except.error (PyErr.valueError "value was empty")
  | Val.num q =>
      if q.den = 1 ∧ 0 ≤ q then Except.ok (Val.num q)
      else Except.error (PyErr.valueError "cannot coerce value to integer in bounds")
  | _ => Except.error (PyErr.valueError "cannot coerce value to integer")

end validators

namespace HC

/-- An entry value that the trim step removes: the nullable-unset sentinel,
an empty sequence, or an empty mapping (spec section 4.2). -/
def isEmptyVal : Val → Bool
  | Val.none => true
  | Val.list xs => xs.isEmpty
  | Val.dict xs => xs.isEmpty
  | _ => false

mutual

/-- Modelled from the spec: the serialization applied by `trim_dict`
(`HighchartsMeta`, not among the source files) to a single value.  Nested
configuration nodes (`Gradient`, `Pattern`, `AnimationOptions`, generic
nodes) are recursively expanded to their own trimmed mappings, nested
mappings are trimmed recursively and list elements are trimmed in place;
scalars (including boolean `false` and numeric `0`) pass through
unchanged. -/
def trimInner : Val → Val
  | Val.list xs => Val.list (trimList xs)
  | Val.dict xs => Val.dict (trimEntries xs)
  | Val.gradient xs => Val.dict (trimEntries xs)
  | Val.pattern xs => Val.dict (trimEntries xs)
  | Val.anim xs => Val.dict (trimEntries xs)
  | Val.node _ xs => Val.dict (trimEntries xs)
  | v => v

/-- Trim every element of a sequence in place. -/
def trimList : List Val → List Val
  | [] => []
  | x :: rest => trimInner x :: trimList rest

/-- Modelled from the spec: `trim(mapping)` (`trim_dict` of
`HighchartsMeta`, not among the source files) recursively removes entries
whose value is the nullable-unset sentinel, an empty sequence, or an empty
mapping, but retains boolean `false` and numeric `0`; it is applied
bottom-up, so an entry whose nested mapping trims to empty is itself
removed. -/
def trimEntries : List (String × Val) → List (String × Val)
  | [] => []
  | (k, v) :: rest =>
      let v' := trimInner v
      if isEmptyVal v' then trimEntries rest
      else (k, v') :: trimEntries rest

end

end HC

namespace HC

/-- Whether a `PyErr` is caught by `except ValueError`: the
`validator_collection` errors and the library's `HighchartsValueError` are
`ValueError` subclasses. -/
def isValueError : PyErr → Bool
  | PyErr.valueError _ => true
  | PyErr.highchartsValueError _ _ => true
  | _ => false

end HC

namespace Gradient

open HC

/-- Modelled from the spec: `Gradient.from_json` (gradients.py, not among
the source files) parses the external JSON-literal notation.  Non-string
input is not parseable literal text and fails with a parse `ValueError`;
parsing of gradient literal strings is exercised by no claim, and string
inputs are likewise treated as parse failures, which triggers the fallback
the spec documents (section 4.1 and the design note on fallback between
alternate encodings). -/
def from_json (_ : Val) : Except PyErr Val :=
  Except.error (PyErr.valueError "unable to parse value as a JSON literal")

/-- Modelled from the spec: `Gradient.from_dict`, the factory consuming the
external mapping; the resulting instance carries the mapping as its
state. -/
def from_dict (d : List (String × Val)) : Val := Val.gradient d

/-- Modelled from the spec: `Gradient(**value)`, the internal-name keyword
constructor. -/
def fromKwargs (d : List (String × Val)) : Val := Val.gradient d

end Gradient

namespace Pattern

open HC

/-- Modelled from the spec: `Pattern.from_json` (patterns.py, not among the
source files), symmetric to `Gradient.from_json`. -/
def from_json (_ : Val) : Except PyErr Val :=
  Except.error (PyErr.valueError "unable to parse value as a JSON literal")

/-- Modelled from the spec: `Pattern.from_dict`, the factory consuming the
external mapping. -/
def from_dict (d : List (String × Val)) : Val := Val.pattern d

/-- Modelled from the spec: `Pattern(**value)`, the internal-name keyword
constructor. -/
def fromKwargs (d : List (String × Val)) : Val := Val.pattern d

end Pattern

namespace HC

/-- The `try: validators.string(value) / except ValueError:
validators.numeric(value)` fallback shared by the numeric-or-percentage
setters (pane.py lines 168 to 171, 189 to 192, 358 to 361, 378 to 381 and
the `center` items at lines 319 to 326). -/
def tryStringThenNumeric (allowEmpty : Bool) (v : Val) : Except PyErr Val :=
  match validators.string allowEmpty v with
  | Except.ok r => Except.ok r
  | Except.error e =>
      if isValueError e then validators.numeric allowEmpty v
      else Except.error e

/-- The polymorphic-color coercive setter body, duplicated verbatim by the
source at `AxisMarker.color` (markers.py lines 58 to 87),
`PaneBackground.background_color` (pane.py lines 51 to 80),
`PaneBackground.border_color` (pane.py lines 94 to 123) and
`GenericTypeOptions.color` (generic.py lines 199 to 228): falsy input
resolves to unset; `Gradient` / `Pattern` instances are stored as-is; a
dict or string containing the `linearGradient` discriminator attempts
`Gradient.from_json`, falling back on `ValueError` to `Gradient.from_dict`
for dicts and to `validators.string` for strings; a dict with the
`linear_gradient` key goes through the keyword constructor; symmetric
handling for `patternOptions` / `pattern_options`; anything else raises
`HighchartsValueError` reporting the received value. -/
def resolveColor (value : Val) : Except PyErr Val :=
  if falsy value then Except.ok Val.none
  else
    match value with
    | Val.gradient d => Except.ok (Val.gradient d)
    | Val.pattern d => Except.ok (Val.pattern d)
    | Val.dict d =>
        if hasKey d "linearGradient" then
          match Gradient.from_json (Val.dict d) with
          | Except.ok v => Except.ok v
          | Except.error e =>
              if isValueError e then Except.ok (Gradient.from_dict d)
              else Except.error e
        else if hasKey d "linear_gradient" then
          Except.ok (Gradient.fromKwargs d)
        else if hasKey d "patternOptions" then
          match Pattern.from_json (Val.dict d) with
          | Except.ok v => Except.ok v
          | Except.error e =>
              if isValueError e then Except.ok (Pattern.from_dict d)
              else Except.error e
        else if hasKey d "pattern_options" then
          Except.ok (Pattern.fromKwargs d)
        else
          Except.error (PyErr.highchartsValueError
            "Unable to resolve value to a string, Gradient, or Pattern." value)
    | Val.str s =>
        if containsSub s "linearGradient" then
          match Gradient.from_json (Val.str s) with
          | Except.ok v => Except.ok v
          | Except.error e =>
              if isValueError e then validators.string false (Val.str s)
              else Except.error e
        else if containsSub s "patternOptions" then
          match Pattern.from_json (Val.str s) with
          | Except.ok v => Except.ok v
          | Except.error e =>
              if isValueError e then validators.string false (Val.str s)
              else Except.error e
        else
          Except.error (PyErr.highchartsValueError
            "Unable to resolve value to a string, Gradient, or Pattern." value)
    | v =>
        Except.error (PyErr.highchartsValueError
          "Unable to resolve value to a string, Gradient, or Pattern." v)

/-- Python `as_dict.pop(key, default)` on an insertion-ordered mapping:
returns the stored value (or the default when the key is absent) together
with the mapping as the call leaves it, the key removed. -/
def popD (key : String) (dflt : Val) : List (String × Val) → Val × List (String × Val)
  | [] => (dflt, [])
  | (k, v) :: rest =>
      if k = key then (v, rest)
      else ((popD key dflt rest).1, (k, v) :: (popD key dflt rest).2)

/-- The state of a `PaneBackground` node: one slot per declared
attribute (pane.py lines 16 to 23). -/
structure PaneBackground where
  background_color : Val
  border_color : Val
  border_width : Val
  class_name : Val
  inner_radius : Val
  outer_radius : Val
  shape : Val

/-- The numeric-or-percentage coercive setter body of
`PaneBackground.inner_radius` (pane.py lines 163 to 171) and
`PaneBackground.outer_radius` (pane.py lines 184 to 192): `None` and the
empty string store unset; otherwise string validation is attempted first
and, on `ValueError`, numeric validation. -/
def radiusSetter : Val → Except PyErr Val
  | Val.none => Except.ok Val.none
  | Val.str s =>
      if s = "" then Except.ok Val.none
      else tryStringThenNumeric true (Val.str s)
  | v => tryStringThenNumeric true v

/-- The enumerated coercive setter body of `PaneBackground.shape` (pane.py
lines 215 to 225): falsy stores unset; otherwise the value is validated as
a string, lowercased, and checked against the allowed set. -/
def shapeSetter (value : Val) : Except PyErr Val :=
  if falsy value then Except.ok Val.none
  else
    match validators.string false value with
    | Except.error e => Except.error e
    | Except.ok (Val.str s0) =>
        let s := toLowerStr s0
        if s = "circle" ∨ s = "solid" ∨ s = "arc" then Except.ok (Val.str s)
        else
          Except.error (PyErr.highchartsValueError
            "shape expects circle, solid, or arc" (Val.str s))
    | Except.ok v => Except.ok v

/-- Embeds `PaneBackground.__init__` (pane.py lines 16 to 38): each keyword
is threaded through its coercive property setter, in source order.  The
`constants.DEFAULT_PANE_BACKGROUND` defaults substituted for missing
keywords are modelled from the spec as the unset sentinel (constants.py is
not among the source files; the spec round-trip law of section 4.2
requires keys absent from the mapping to resolve to the unset state). -/
def PaneBackground.init (background_color border_color border_width class_name
    inner_radius outer_radius shape : Val) : Except PyErr PaneBackground := do
  let bg ← resolveColor background_color
  let bc ← resolveColor border_color
  let bw ← validators.numeric true border_width
  let cn ← validators.string true class_name
  let ir ← radiusSetter inner_radius
  let outr ← radiusSetter outer_radius
  let sh ← shapeSetter shape
  Except.ok ⟨bg, bc, bw, cn, ir, outr, sh⟩

/-- Embeds `PaneBackground.from_dict` (pane.py lines 227 to 245): pops each
declared external key out of the argument (mutating it) and threads the
extracted raw values through the constructor.  The first component is the
constructed node or the coercion error; the second is the mapping as the
call leaves it. -/
def PaneBackground.from_dict (as_dict : List (String × Val)) :
    Except PyErr PaneBackground × List (String × Val) :=
  let p1 := popD "backgroundColor" Val.none as_dict
  let p2 := popD "borderColor" Val.none p1.2
  let p3 := popD "borderWidth" Val.none p2.2
  let p4 := popD "className" Val.none p3.2
  let p5 := popD "innerRadius" Val.none p4.2
  let p6 := popD "outerRadius" Val.none p5.2
  let p7 := popD "shape" Val.none p6.2
  (PaneBackground.init p1.1 p2.1 p3.1 p4.1 p5.1 p6.1 p7.1, p7.2)

/-- Embeds `PaneBackground.to_dict` (pane.py lines 247 to 258): the
untrimmed mapping of every declared external key, passed through
`trim_dict` (modelled by `trimEntries`). -/
def PaneBackground.to_dict (pb : PaneBackground) : List (String × Val) :=
  trimEntries [("backgroundColor", pb.background_color),
               ("borderColor", pb.border_color),
               ("borderWidth", pb.border_width),
               ("className", pb.class_name),
               ("innerRadius", pb.inner_radius),
               ("outerRadius", pb.outer_radius),
               ("shape", pb.shape)]

/-- Modelled from the spec: `validate_types(value, AnimationOptions)`
(decorators.py is not among the source files) — `None` and instances of
the expected node type are accepted, mappings are constructed into the
node, anything else is a validation failure (spec section 4.1, nested
node slots). -/
def validate_types_anim : Val → Except PyErr Val
  | Val.none => Except.ok Val.none
  | Val.anim d => Except.ok (Val.anim d)
  | Val.dict d => Except.ok (Val.anim d)
  | v => Except.error (PyErr.highchartsValueError "value is not an AnimationOptions" v)

/-- Embeds the `AxisMarker.animation` setter (markers.py lines 41 to 46):
`False` is stored as-is; anything else goes through
`validate_types(value, AnimationOptions)`. -/
def animationSetter : Val → Except PyErr Val
  | Val.bool false => Except.ok (Val.bool false)
  | v => validate_types_anim v

/-- The state of an `AxisMarker` node: one slot per declared attribute
(markers.py lines 18 to 21). -/
structure AxisMarker where
  animation : Val
  color : Val
  width : Val

/-- Embeds `AxisMarker.__init__` (markers.py lines 18 to 25): each keyword
(defaulting to `None`) is threaded through its coercive property setter in
source order. -/
def AxisMarker.init (animation color width : Val) : Except PyErr AxisMarker := do
  let a ← animationSetter animation
  let c ← resolveColor color
  let w ← validators.numeric true width
  Except.ok ⟨a, c, w⟩

/-- Embeds `AxisMarker.from_dict` (markers.py lines 102 to 110): pops the
declared external keys out of the argument (mutating it; the defaults are
the literal `None`) and constructs the node. -/
def AxisMarker.from_dict (as_dict : List (String × Val)) :
    Except PyErr AxisMarker × List (String × Val) :=
  let p1 := popD "animation" Val.none as_dict
  let p2 := popD "color" Val.none p1.2
  let p3 := popD "width" Val.none p2.2
  (AxisMarker.init p1.1 p2.1 p3.1, p3.2)

/-- Embeds `AxisMarker._to_untrimmed_dict` (markers.py lines 112 to 119). -/
def AxisMarker.to_untrimmed_dict (m : AxisMarker) : List (String × Val) :=
  [("animation", m.animation), ("color", m.color), ("width", m.width)]

/-- Modelled from the spec: `to_dict` is inherited from `HighchartsMeta`
(metaclasses.py is not among the source files); per spec section 4.2,
`to_dict(node) = trim(to_untrimmed_dict(node))`. -/
def AxisMarker.to_dict (m : AxisMarker) : List (String × Val) :=
  trimEntries (AxisMarker.to_untrimmed_dict m)

end HC

namespace HC

/-- Python `bool(value)` as used by the boolean setters of
`GenericTypeOptions` (e.g. `allow_point_select`, generic.py lines 123 to
125): plain truthiness, never raising. -/
def pyBool (v : Val) : Val := Val.bool (!(falsy v))

/-- Modelled from the spec: the `class_sensitive(cls)` decorator
(decorators.py is not among the source files): `None` is accepted as
unset, instances of the expected node type pass through, mappings are
constructed via the node's factory, anything else is a validation failure
(spec section 4.1, nested node slots). -/
def class_sensitive (cls : String) : Val → Except PyErr Val
  | Val.none => Except.ok Val.none
  | Val.dict d => Except.ok (Val.node cls d)
  | Val.node c d =>
      if c = cls then Except.ok (Val.node c d)
      else Except.error (PyErr.highchartsValueError
        "value is not an instance of the expected type" (Val.node c d))
  | v => Except.error (PyErr.highchartsValueError
      "value is not an instance of the expected type" v)

/-- Modelled from the spec: `validate_types` with `allow_none = False`
(decorators.py is not among the source files): as `class_sensitive` but the
unset sentinel is also a validation failure. -/
def validate_types_strict (cls : String) : Val → Except PyErr Val
  | Val.dict d => Except.ok (Val.node cls d)
  | Val.node c d =>
      if c = cls then Except.ok (Val.node c d)
      else Except.error (PyErr.highchartsValueError
        "value is not an instance of the expected type" (Val.node c d))
  | v => Except.error (PyErr.highchartsValueError
      "value is not an instance of the expected type" v)

/-- Element-wise `validate_types` over a sequence, as applied with
`force_iterable = True`. -/
def mapMValidate (cls : String) : List Val → Except PyErr (List Val)
  | [] => Except.ok []
  | v :: rest => do
      let r ← validate_types_strict cls v
      let rs ← mapMValidate cls rest
      Except.ok (r :: rs)

/-- Modelled from the spec: `constants.SUPPORTED_CURSOR_VALUES`
(constants.py is not among the source files), taken from the enumeration in
the `cursor` property docstring (generic.py lines 234 to 271). -/
def SUPPORTED_CURSOR_VALUES : List String :=
  ["alias", "all-scroll", "auto", "cell", "col-resize", "context-menu",
   "copy", "crosshair", "default", "e-resize", "ew-resize", "grab",
   "grabbing", "help", "move", "n-resize", "ne-resize", "nesw-resize",
   "no-drop", "none", "not-allowed", "ns-resize", "nw-resize",
   "nwse-resize", "pointer", "progress", "row-resize", "s-resize",
   "se-resize", "sw-resize", "text", "vertical-text", "w-resize", "wait",
   "zoom-in", "zoom-out"]

/-- Embeds the `GenericTypeOptions.cursor` setter (generic.py lines 277 to
287): falsy stores unset; otherwise the value is validated as a string,
lowercased and checked against the supported cursor values. -/
def cursorSetter (value : Val) : Except PyErr Val :=
  if falsy value then Except.ok Val.none
  else
    match validators.string false value with
    | Except.error e => Except.error e
    | Except.ok (Val.str s0) =>
        let s := toLowerStr s0
        if s ∈ SUPPORTED_CURSOR_VALUES then Except.ok (Val.str s)
        else Except.error (PyErr.highchartsValueError
          "cursor expects a valid cursor value" (Val.str s))
    | Except.ok v => Except.ok v

/-- Modelled from the spec: `constants.SUPPORTED_DASH_STYLE_VALUES`
(constants.py is not among the source files), taken from the enumeration in
the `dash_style` property docstring (generic.py lines 309 to 321). -/
def SUPPORTED_DASH_STYLE_VALUES : List String :=
  ["Dash", "DashDot", "Dot", "LongDash", "LongDashDot", "LongDashDotDot",
   "ShortDash", "ShortDashDot", "ShortDashDotDot", "ShortDot", "Solid"]

/-- Embeds the `GenericTypeOptions.dash_style` setter (generic.py lines 327
to 336): falsy stores unset; otherwise the value is validated as a string
and checked (without case folding) against the supported dash styles. -/
def dashStyleSetter (value : Val) : Except PyErr Val :=
  if falsy value then Except.ok Val.none
  else
    match validators.string false value with
    | Except.error e => Except.error e
    | Except.ok (Val.str s) =>
        if s ∈ SUPPORTED_DASH_STYLE_VALUES then Except.ok (Val.str s)
        else Except.error (PyErr.highchartsValueError
          "dash_style expects a recognized value" (Val.str s))
    | Except.ok v => Except.ok v

/-- Embeds the `GenericTypeOptions.custom` setter (generic.py lines 300 to
302): `validators.dict(value, allow_empty = True) or` the empty dict. -/
def customSetter (value : Val) : Except PyErr Val := do
  let r ← validators.dict true value
  Except.ok (if falsy r then Val.dict [] else r)

/-- Embeds the `GenericTypeOptions.data_labels` setter (generic.py lines
352 to 365): falsy stores unset; an iterable is validated element-wise
against `DataLabel`, anything else as a single `DataLabel` with
`allow_none = False`. -/
def dataLabelsSetter (value : Val) : Except PyErr Val :=
  if falsy value then Except.ok Val.none
  else
    match value with
    | Val.list xs => (mapMValidate "DataLabel" xs).map Val.list
    | v => validate_types_strict "DataLabel" v

/-- Element-wise `validators.string` over a sequence. -/
def mapMString : List Val → Except PyErr (List Val)
  | [] => Except.ok []
  | v :: rest => do
      let r ← validators.string false v
      let rs ← mapMString rest
      Except.ok (r :: rs)

/-- Embeds the `GenericTypeOptions.keys` setter (generic.py lines 437 to
443): falsy stores unset; otherwise the value must be an iterable
(`validators.iterable` rejects strings and bytes) and every element is
validated as a string. -/
def keysSetter (value : Val) : Except PyErr Val :=
  if falsy value then Except.ok Val.none
  else
    match value with
    | Val.list xs => (mapMString xs).map Val.list
    | _ => Except.error (PyErr.valueError "value is not iterable")

/-- The raw keyword values `GenericTypeOptions._get_kwargs_from_dict`
extracts (generic.py lines 748 to 781), one field per declared
attribute. -/
structure GTOKwargs where
  accessibility : Val
  allow_point_select : Val
  animation : Val
  class_name : Val
  clip : Val
  color : Val
  cursor : Val
  custom : Val
  dash_style : Val
  data_labels : Val
  description : Val
  enable_mouse_tracking : Val
  events : Val
  include_in_data_export : Val
  keys : Val
  label : Val
  linked_to : Val
  marker : Val
  on_point : Val
  opacity : Val
  point : Val
  point_description_formatter : Val
  selected : Val
  show_checkbox : Val
  show_in_legend : Val
  skip_keyboard_navigation : Val
  states : Val
  sticky_tracking : Val
  threshold : Val
  tooltip : Val
  turbo_threshold : Val
  visible : Val

/-- The state of a `GenericTypeOptions` node: one slot per declared
attribute (generic.py lines 28 to 59). -/
structure GenericTypeOptions where
  accessibility : Val
  allow_point_select : Val
  animation : Val
  class_name : Val
  clip : Val
  color : Val
  cursor : Val
  custom : Val
  dash_style : Val
  data_labels : Val
  description : Val
  enable_mouse_tracking : Val
  events : Val
  include_in_data_export : Val
  keys : Val
  label : Val
  linked_to : Val
  marker : Val
  on_point : Val
  opacity : Val
  point : Val
  point_description_formatter : Val
  selected : Val
  show_checkbox : Val
  show_in_legend : Val
  skip_keyboard_navigation : Val
  states : Val
  sticky_tracking : Val
  threshold : Val
  tooltip : Val
  turbo_threshold : Val
  visible : Val

/-- Embeds `GenericTypeOptions.__init__` (generic.py lines 27 to 92): each
keyword is threaded through its coercive property setter, in source
assignment order.  The assignment `self.show_checkbox = ...` (line 84)
targets the `show_checkbox` property, which declares a getter but no
setter (lines 579 to 591), so in Python it raises `AttributeError`; the
assignments at lines 85 to 92 (`show_in_legend` through `visible`) are
unreachable on every input. -/
def GenericTypeOptions.init (kw : GTOKwargs) : Except PyErr GenericTypeOptions := do
  let _accessibility ← class_sensitive "TypeOptionsAccessibility" kw.accessibility
  let _allow_point_select := pyBool kw.allow_point_select
  let _animation ← class_sensitive "AnimationOptions" kw.animation
  let _class_name ← validators.string true kw.class_name
  let _clip := pyBool kw.clip
  let _color ← resolveColor kw.color
  let _cursor ← cursorSetter kw.cursor
  let _custom ← customSetter kw.custom
  let _dash_style ← dashStyleSetter kw.dash_style
  let _data_labels ← dataLabelsSetter kw.data_labels
  let _description ← validators.string true kw.description
  let _enable_mouse_tracking := pyBool kw.enable_mouse_tracking
  let _events ← class_sensitive "SeriesEvents" kw.events
  let _include_in_data_export := pyBool kw.include_in_data_export
  let _keys ← keysSetter kw.keys
  let _label ← class_sensitive "SeriesLabel" kw.label
  let _linked_to ← validators.string true kw.linked_to
  let _marker ← class_sensitive "Marker" kw.marker
  let _on_point ← class_sensitive "OnPointOptions" kw.on_point
  let _opacity ← validators.float01 true kw.opacity
  let _point ← class_sensitive "Point" kw.point
  let _point_description_formatter ← validators.string true kw.point_description_formatter
  let _selected := pyBool kw.selected
  Except.error (PyErr.attributeError
    "property show_checkbox of GenericTypeOptions object has no setter")

/-- Embeds `GenericTypeOptions._get_kwargs_from_dict` (generic.py lines 736
to 783): pops each declared external key out of the argument (mutating it)
with the literal defaults written at those lines. -/
def GenericTypeOptions.get_kwargs_from_dict (as_dict : List (String × Val)) :
    GTOKwargs × List (String × Val) :=
  let p1 := popD "accessibility" Val.none as_dict
  let p2 := popD "allowPointSelect" (Val.bool false) p1.2
  let p3 := popD "animation" Val.none p2.2
  let p4 := popD "className" Val.none p3.2
  let p5 := popD "clip" (Val.bool true) p4.2
  let p6 := popD "color" Val.none p5.2
  let p7 := popD "cursor" Val.none p6.2
  let p8 := popD "custom" Val.none p7.2
  let p9 := popD "dashStyle" Val.none p8.2
  let p10 := popD "dataLabels" Val.none p9.2
  let p11 := popD "description" Val.none p10.2
  let p12 := popD "enableMouseTracking" (Val.bool true) p11.2
  let p13 := popD "events" Val.none p12.2
  let p14 := popD "includeInDataExport" Val.none p13.2
  let p15 := popD "keys" Val.none p14.2
  let p16 := popD "label" Val.none p15.2
  let p17 := popD "linkedTo" Val.none p16.2
  let p18 := popD "marker" Val.none p17.2
  let p19 := popD "onPoint" Val.none p18.2
  let p20 := popD "opacity" Val.none p19.2
  let p21 := popD "point" Val.none p20.2
  let p22 := popD "pointDescriptionFormatter" Val.none p21.2
  let p23 := popD "selected" (Val.bool false) p22.2
  let p24 := popD "showCheckbox" (Val.bool false) p23.2
  let p25 := popD "showInLegend" Val.none p24.2
  let p26 := popD "skipKeyboardNavigation" Val.none p25.2
  let p27 := popD "states" Val.none p26.2
  let p28 := popD "stickyTracking" Val.none p27.2
  let p29 := popD "threshold" Val.none p28.2
  let p30 := popD "tooltip" Val.none p29.2
  let p31 := popD "turboThreshold" Val.none p30.2
  let p32 := popD "visible" (Val.bool true) p31.2
  (⟨p1.1, p2.1, p3.1, p4.1, p5.1, p6.1, p7.1, p8.1, p9.1, p10.1, p11.1,
    p12.1, p13.1, p14.1, p15.1, p16.1, p17.1, p18.1, p19.1, p20.1, p21.1,
    p22.1, p23.1, p24.1, p25.1, p26.1, p27.1, p28.1, p29.1, p30.1, p31.1,
    p32.1⟩, p32.2)

/-- Embeds `GenericTypeOptions.from_dict` (generic.py lines 785 to 789):
extracts the keyword values and constructs the node. -/
def GenericTypeOptions.from_dict (as_dict : List (String × Val)) :
    Except PyErr GenericTypeOptions × List (String × Val) :=
  let (kwargs, rest) := GenericTypeOptions.get_kwargs_from_dict as_dict
  (GenericTypeOptions.init kwargs, rest)

end HC

namespace HC

/-- The body shared by the `Pane.size` setter (pane.py lines 373 to 381)
and the `Pane.inner_size` setter (pane.py lines 353 to 361): falsy input
(which includes the number 0) stores unset; otherwise string validation is
attempted and, on `ValueError`, numeric validation (both with the strict
`allow_empty = False` default). -/
def sizeSetter (value : Val) : Except PyErr Val :=
  if falsy value then Except.ok Val.none
  else tryStringThenNumeric false value

/-- One position of a `Pane.center` pair (pane.py lines 318 to 326): string
validation, falling back on `ValueError` to numeric validation. -/
def centerItem (v : Val) : Except PyErr Val :=
  tryStringThenNumeric false v

/-- A two-item `[x, y]` position of `Pane.center` (pane.py lines 313 to
326): validated as an iterable of exactly two items, each a string or a
number. -/
def centerPair : Val → Except PyErr Val
  | Val.list [a, b] => do
      let a0 ← centerItem a
      let b0 ← centerItem b
      Except.ok (Val.list [a0, b0])
  | v => Except.error (PyErr.valueError
      ((fun _ => "value is not an iterable of exactly two items") v))

/-- Element-wise validation of the `Pane.center` positions. -/
def mapMCenterPair : List Val → Except PyErr (List Val)
  | [] => Except.ok []
  | v :: rest => do
      let r ← centerPair v
      let rs ← mapMCenterPair rest
      Except.ok (r :: rs)

/-- Embeds the `Pane.center` setter (pane.py lines 308 to 328): falsy
stores unset; otherwise the value must be an iterable of two-item
positions. -/
def centerSetter (value : Val) : Except PyErr Val :=
  if falsy value then Except.ok Val.none
  else
    match value with
    | Val.list xs => (mapMCenterPair xs).map Val.list
    | _ => Except.error (PyErr.valueError "value is not iterable")

/-- Modelled from the spec: `class_sensitive(PaneBackground,
force_iterable = True)` applied by the `Pane.background` setter (pane.py
lines 289 to 292): unset stays unset, sequences are coerced element-wise,
and a single mapping or instance is wrapped into a one-element sequence
(spec section 4.1, sequence-of-node slots). -/
def backgroundSetter (value : Val) : Except PyErr Val :=
  match value with
  | Val.none => Except.ok Val.none
  | Val.list xs => (mapMValidate "PaneBackground" xs).map Val.list
  | v => (validate_types_strict "PaneBackground" v).map (fun r => Val.list [r])

/-- The state of a `Pane` node: one slot per declared attribute (pane.py
lines 265 to 271). -/
structure Pane where
  background : Val
  center : Val
  end_angle : Val
  inner_size : Val
  size : Val
  start_angle : Val

/-- Embeds `Pane.__init__` (pane.py lines 265 to 278): each keyword is
threaded through its coercive property setter in source order; the
`constants.DEFAULT_PANE` defaults for missing keywords are modelled from
the spec as the unset sentinel, as for `PaneBackground`. -/
def Pane.init (background center end_angle inner_size size start_angle : Val) :
    Except PyErr Pane := do
  let b ← backgroundSetter background
  let c ← centerSetter center
  let ea ← validators.numeric true end_angle
  let isz ← sizeSetter inner_size
  let sz ← sizeSetter size
  let sa ← validators.numeric true start_angle
  Except.ok ⟨b, c, ea, isz, sz, sa⟩

/-- Embeds `Pane.from_dict` (pane.py lines 396 to 407): pops each declared
external key out of the argument and constructs the node. -/
def Pane.from_dict (as_dict : List (String × Val)) :
    Except PyErr Pane × List (String × Val) :=
  let p1 := popD "background" Val.none as_dict
  let p2 := popD "center" Val.none p1.2
  let p3 := popD "endAngle" Val.none p2.2
  let p4 := popD "innerSize" Val.none p3.2
  let p5 := popD "size" Val.none p4.2
  let p6 := popD "startAngle" Val.none p5.2
  (Pane.init p1.1 p2.1 p3.1 p4.1 p5.1 p6.1, p6.2)

/-- Embeds `Pane.to_dict` (pane.py lines 409 to 419): the untrimmed mapping
of every declared external key, passed through `trim_dict` (modelled by
`trimEntries`). -/
def Pane.to_dict (p : Pane) : List (String × Val) :=
  trimEntries [("background", p.background),
               ("center", p.center),
               ("endAngle", p.end_angle),
               ("innerSize", p.inner_size),
               ("size", p.size),
               ("startAngle", p.start_angle)]

/-- A Python annotation expression as written in pane.py: a bare name, a
union `a | b`, a subscription `head[arg]`, or a call `head(arg)`. -/
inductive PyAnnot where
  | name (s : String)
  | orT (a b : PyAnnot)
  | subscript (head arg : PyAnnot)
  | call (head arg : PyAnnot)

/-- The runtime value of an annotation expression: a type object, a union,
a subscripted form, or an unsubscripted `typing` special form such as
`Optional`. -/
inductive PyTy where
  | named (s : String)
  | union (a b : PyTy)
  | applied (head : PyTy) (arg : PyTy)
  | specialForm (s : String)

/-- Evaluation of an annotation expression under CPython semantics (return
annotations are evaluated when the `def` statement executes; pane.py does
not import `annotations` from `__future__`): `typing.Optional` is a
special form, `Optional[X]` subscribes it, `a | b` builds a union, and
calling a special form raises `TypeError` — `typing._SpecialForm.__call__`
raises `Cannot instantiate typing.Optional`. -/
def evalAnnot : PyAnnot → Except PyErr PyTy
  | PyAnnot.name "Optional" => Except.ok (PyTy.specialForm "Optional")
  | PyAnnot.name s => Except.ok (PyTy.named s)
  | PyAnnot.orT a b => do
      let ta ← evalAnnot a
      let tb ← evalAnnot b
      Except.ok (PyTy.union ta tb)
  | PyAnnot.subscript h a => do
      let th ← evalAnnot h
      let ta ← evalAnnot a
      Except.ok (PyTy.applied th ta)
  | PyAnnot.call h a => do
      let th ← evalAnnot h
      let _ ← evalAnnot a
      match th with
      | PyTy.specialForm f =>
          Except.error (PyErr.typeError ("Cannot instantiate typing." ++ f))
      | t => Except.ok t

/-- The union `int | float | Decimal` of the numeric annotations in
pane.py. -/
def numericUnion : PyAnnot :=
  PyAnnot.orT (PyAnnot.orT (PyAnnot.name "int") (PyAnnot.name "float"))
    (PyAnnot.name "Decimal")

/-- The return annotations of the property getters of pane.py, in the
order the module executes them: first the `PaneBackground` class body
(lines 13 to 258), then the `Pane` class body (lines 261 to 419).  Every
getter subscripts `Optional[...]` except `Pane.end_angle` (line 331) and
`Pane.start_angle` (line 384), which CALL it:
`Optional(int | float | Decimal)`. -/
def paneModuleAnnotations : List (String × PyAnnot) :=
  [("PaneBackground.background_color", PyAnnot.subscript (PyAnnot.name "Optional")
      (PyAnnot.orT (PyAnnot.orT (PyAnnot.name "str") (PyAnnot.name "Gradient"))
        (PyAnnot.name "Pattern"))),
   ("PaneBackground.border_color", PyAnnot.subscript (PyAnnot.name "Optional")
      (PyAnnot.orT (PyAnnot.orT (PyAnnot.name "str") (PyAnnot.name "Gradient"))
        (PyAnnot.name "Pattern"))),
   ("PaneBackground.border_width", PyAnnot.subscript (PyAnnot.name "Optional")
      numericUnion),
   ("PaneBackground.class_name", PyAnnot.subscript (PyAnnot.name "Optional")
      (PyAnnot.name "str")),
   ("PaneBackground.inner_radius", PyAnnot.subscript (PyAnnot.name "Optional")
      (PyAnnot.orT numericUnion (PyAnnot.name "str"))),
   ("PaneBackground.outer_radius", PyAnnot.subscript (PyAnnot.name "Optional")
      (PyAnnot.orT numericUnion (PyAnnot.name "str"))),
   ("PaneBackground.shape", PyAnnot.subscript (PyAnnot.name "Optional")
      (PyAnnot.name "str")),
   ("Pane.background", PyAnnot.subscript (PyAnnot.name "Optional")
      (PyAnnot.subscript (PyAnnot.name "List") (PyAnnot.name "PaneBackground"))),
   ("Pane.center", PyAnnot.subscript (PyAnnot.name "Optional")
      (PyAnnot.subscript (PyAnnot.name "List")
        (PyAnnot.orT (PyAnnot.name "str") (PyAnnot.name "int")))),
   ("Pane.end_angle", PyAnnot.call (PyAnnot.name "Optional") numericUnion),
   ("Pane.inner_size", PyAnnot.subscript (PyAnnot.name "Optional")
      (PyAnnot.orT numericUnion (PyAnnot.name "str"))),
   ("Pane.size", PyAnnot.subscript (PyAnnot.name "Optional")
      (PyAnnot.orT numericUnion (PyAnnot.name "str"))),
   ("Pane.start_angle", PyAnnot.call (PyAnnot.name "Optional") numericUnion)]

/-- Execution of the property `def` statements of a module body: each
evaluates its return annotation; the first exception aborts the import. -/
def evalDefs : List (String × PyAnnot) → Except PyErr Unit
  | [] => Except.ok ()
  | (_, a) :: rest => do
      let _ ← evalAnnot a
      evalDefs rest

/-- Importing the pane.py module executes both class bodies in order. -/
def importPaneModule : Except PyErr Unit := evalDefs paneModuleAnnotations

end HC

namespace HC

mutual

theorem trimInner_idem : (v : Val) → trimInner (trimInner v) = trimInner v
  | Val.none => rfl
  | Val.bool _ => rfl
  | Val.num _ => rfl
  | Val.str _ => rfl
  | Val.enforcedNull => rfl
  | Val.list xs => by simp [trimInner, trimList_idem xs]
  | Val.dict xs => by simp [trimInner, trimEntries_idem xs]
  | Val.gradient xs => by simp [trimInner, trimEntries_idem xs]
  | Val.pattern xs => by simp [trimInner, trimEntries_idem xs]
  | Val.anim xs => by simp [trimInner, trimEntries_idem xs]
  | Val.node _ xs => by simp [trimInner, trimEntries_idem xs]

theorem trimList_idem : (xs : List Val) → trimList (trimList xs) = trimList xs
  | [] => rfl
  | x :: rest => by simp [trimList, trimInner_idem x, trimList_idem rest]

theorem trimEntries_idem :
    (xs : List (String × Val)) → trimEntries (trimEntries xs) = trimEntries xs
  | [] => rfl
  | (k, v) :: rest => by
      by_cases h : isEmptyVal (trimInner v)
      · simp only [trimEntries, h, if_pos, trimEntries_idem rest]
      · simp only [trimEntries, h, if_neg, if_false, Bool.false_eq_true,
          trimInner_idem v, trimEntries_idem rest]

end

end HC

namespace HC

/-- C2: the trim step applied by `to_dict` to the untrimmed mapping is
idempotent — trimming a nested mapping twice equals trimming it once,
whatever the entries hold (empty strings, empty sequences, empty mappings,
boolean false, the number 0, nested nodes) — and likewise for every
value. -/
theorem C2_trim_idempotent :
    (∀ x : List (String × Val), trimEntries (trimEntries x) = trimEntries x) ∧
    (∀ v : Val, trimInner (trimInner v) = trimInner v) :=
  ⟨fun x => trimEntries_idem x, fun v => trimInner_idem v⟩

/-- C9: executing pane.py raises `TypeError` while the `Pane` class body
runs — the `end_angle` getter annotation calls `typing.Optional` instead
of subscripting it — so importing the module fails before any `Pane`
instance can exist, and `PaneBackground`, sharing the module, is lost with
it; the defs before `end_angle` (the whole `PaneBackground` body and the
first two `Pane` properties) evaluate without error, and `start_angle`
would fail the same way. -/
theorem C9_pane_module_import_fails :
    importPaneModule =
      Except.error (PyErr.typeError "Cannot instantiate typing.Optional") ∧
    evalDefs (paneModuleAnnotations.take 9) = Except.ok () ∧
    evalAnnot (PyAnnot.call (PyAnnot.name "Optional") numericUnion) =
      Except.error (PyErr.typeError "Cannot instantiate typing.Optional") :=
  ⟨rfl, rfl, rfl⟩

/-- C10: the `Pane.size` and `Pane.inner_size` setters resolve every falsy
input to the unset state — in particular the number 0 is stored as `None`
rather than 0 — and a `Pane` built with both slots set to 0 serializes to
a mapping with no size entries at all. -/
theorem C10_size_zero_unset :
    (∀ v : Val, falsy v = true → sizeSetter v = Except.ok Val.none) ∧
    Pane.init Val.none Val.none Val.none (Val.num 0) (Val.num 0) Val.none =
      Except.ok ⟨Val.none, Val.none, Val.none, Val.none, Val.none, Val.none⟩ ∧
    Pane.to_dict ⟨Val.none, Val.none, Val.none, Val.none, Val.none, Val.none⟩ = [] := by
  refine ⟨?_, rfl, rfl⟩
  intro v h
  simp [sizeSetter, h]

/-- Witness for C10 at the concrete falsy input 0. -/
theorem C10_size_zero_unset_witness :
    falsy (Val.num 0) = true ∧ sizeSetter (Val.num 0) = Except.ok Val.none :=
  ⟨rfl, C10_size_zero_unset.1 (Val.num 0) rfl⟩

/-- C7: an `AxisMarker` built with `width = 0.01` and unset color
serializes to exactly the single-entry mapping `width ↦ 0.01` — trim drops
the unset animation and color entries and keeps the small number — and in
general trim drops exactly the entries whose trimmed value is unset/empty
while retaining boolean `false` and numeric `0`. -/
theorem C7_axis_marker_to_dict :
    AxisMarker.init Val.none Val.none (Val.num 0.01) =
      Except.ok ⟨Val.none, Val.none, Val.num 0.01⟩ ∧
    AxisMarker.to_dict ⟨Val.none, Val.none, Val.num 0.01⟩ =
      [("width", Val.num 0.01)] ∧
    (∀ (k : String) (v : Val) (xs : List (String × Val)),
       (isEmptyVal (trimInner v) = false →
         trimEntries ((k, v) :: xs) = (k, trimInner v) :: trimEntries xs) ∧
       (isEmptyVal (trimInner v) = true →
         trimEntries ((k, v) :: xs) = trimEntries xs)) ∧
    (∀ (k : String) (xs : List (String × Val)),
       trimEntries ((k, Val.bool false) :: xs) =
         (k, Val.bool false) :: trimEntries xs ∧
       trimEntries ((k, Val.num 0) :: xs) = (k, Val.num 0) :: trimEntries xs ∧
       trimEntries ((k, Val.none) :: xs) = trimEntries xs ∧
       trimEntries ((k, Val.dict []) :: xs) = trimEntries xs ∧
       trimEntries ((k, Val.list []) :: xs) = trimEntries xs) := by
  refine ⟨rfl, rfl, ?_, ?_⟩
  · intro k v xs
    constructor
    · intro h
      simp [trimEntries, h]
    · intro h
      simp [trimEntries, h]
  · intro k xs
    refine ⟨?_, ?_, ?_, ?_, ?_⟩ <;>
      simp [trimEntries, trimInner, trimList, isEmptyVal]

/-- Witness for C7: the retention and removal branches applied at concrete
entries. -/
theorem C7_axis_marker_to_dict_witness :
    isEmptyVal (trimInner (Val.num 0.01)) = false ∧
    trimEntries [("width", Val.num 0.01)] = [("width", Val.num 0.01)] ∧
    isEmptyVal (trimInner Val.none) = true ∧
    trimEntries [("color", Val.none)] = [] :=
  ⟨rfl, by simpa using ((C7_axis_marker_to_dict.2.2.1 "width" (Val.num 0.01) []).1 rfl),
   rfl, by simpa using ((C7_axis_marker_to_dict.2.2.1 "color" Val.none []).2 rfl)⟩

/-- C5 counterexample: contrary to the claim, setting
`PaneBackground.inner_radius` to the string `"fifty"` raises nothing — the
string passes `validators.string` (which checks only that its argument is
a non-empty string) and is stored verbatim. -/
theorem C5_counterexample_fifty_stored :
    radiusSetter (Val.str "fifty") = Except.ok (Val.str "fifty") := rfl

/-- C5 amended: `inner_radius` set to 50 stores numeric 50, set to the
string `"50%"` stores that string, set to `None` stores unset, and set to
`"fifty"` is accepted and stores the string `"fifty"` — string validation
is attempted first and accepts every non-empty string, so no
numeric-or-percentage format check happens and no `InvalidValue` is raised
for `"fifty"`. -/
theorem C5_inner_radius_amended :
    radiusSetter (Val.num 50) = Except.ok (Val.num 50) ∧
    radiusSetter (Val.str "50%") = Except.ok (Val.str "50%") ∧
    radiusSetter Val.none = Except.ok Val.none ∧
    radiusSetter (Val.str "fifty") = Except.ok (Val.str "fifty") ∧
    (PaneBackground.init Val.none Val.none Val.none Val.none (Val.num 50)
        Val.none Val.none).map PaneBackground.inner_radius =
      Except.ok (Val.num 50) :=
  ⟨rfl, rfl, rfl, rfl, rfl⟩

/-- C3: evaluating the polymorphic-color setter at a plain color string
shows the code raising: the shared setter body has no branch accepting a
string without a discriminator substring, so assigning `"#999999"` to
`AxisMarker.color` (equally `PaneBackground.background_color` or
`GenericTypeOptions.color`) raises `HighchartsValueError` carrying the
value, although each property documents plain color strings among its
accepted types. -/
theorem C3_plain_color_string_rejected :
    resolveColor (Val.str "#999999") =
      Except.error (PyErr.highchartsValueError
        "Unable to resolve value to a string, Gradient, or Pattern."
        (Val.str "#999999")) ∧
    (AxisMarker.from_dict [("color", Val.str "#999999")]).1 =
      Except.error (PyErr.highchartsValueError
        "Unable to resolve value to a string, Gradient, or Pattern."
        (Val.str "#999999")) :=
  ⟨rfl, rfl⟩

end HC

namespace HC

/-- C4: polymorphic color dispatch — a mapping containing the
`linearGradient` key resolves to a Gradient; a mapping containing the
`patternOptions` key (and, per the tagged-union invariant of spec section
3, no gradient discriminator) resolves to a Pattern; each falsy input
among the empty string, the empty mapping and `None` resolves to unset;
and a mapping with no discriminator key raises `HighchartsValueError`
carrying the received value. -/
theorem C4_color_dispatch :
    ∀ d : List (String × Val),
      (hasKey d "linearGradient" = true →
        resolveColor (Val.dict d) = Except.ok (Val.gradient d)) ∧
      (hasKey d "patternOptions" = true → hasKey d "linearGradient" = false →
        hasKey d "linear_gradient" = false →
        resolveColor (Val.dict d) = Except.ok (Val.pattern d)) ∧
      resolveColor (Val.str "") = Except.ok Val.none ∧
      resolveColor (Val.dict []) = Except.ok Val.none ∧
      resolveColor Val.none = Except.ok Val.none ∧
      resolveColor (Val.dict [("foo", Val.str "bar")]) =
        Except.error (PyErr.highchartsValueError
          "Unable to resolve value to a string, Gradient, or Pattern."
          (Val.dict [("foo", Val.str "bar")])) := by
  intro d
  refine ⟨?_, ?_, rfl, rfl, rfl, rfl⟩
  · intro h
    have hne : d.isEmpty = false := by
      cases d with
      | nil => simp [hasKey] at h
      | cons a rest => rfl
    simp [resolveColor, falsy, hne, h, Gradient.from_json, Gradient.from_dict,
      isValueError]
  · intro hp hl hlg
    have hne : d.isEmpty = false := by
      cases d with
      | nil => simp [hasKey] at hp
      | cons a rest => rfl
    simp [resolveColor, falsy, hne, hp, hl, hlg, Pattern.from_json,
      Pattern.from_dict, isValueError]

/-- Witness for C4 at concrete discriminated mappings. -/
theorem C4_color_dispatch_witness :
    hasKey [("linearGradient", Val.none)] "linearGradient" = true ∧
    resolveColor (Val.dict [("linearGradient", Val.none)]) =
      Except.ok (Val.gradient [("linearGradient", Val.none)]) ∧
    hasKey [("patternOptions", Val.none)] "patternOptions" = true ∧
    resolveColor (Val.dict [("patternOptions", Val.none)]) =
      Except.ok (Val.pattern [("patternOptions", Val.none)]) :=
  ⟨rfl, (C4_color_dispatch [("linearGradient", Val.none)]).1 rfl, rfl,
    ((C4_color_dispatch [("patternOptions", Val.none)]).2.1 rfl rfl rfl)⟩

/-- A bind whose continuation never returns the given `ok` cannot return
it either. -/
theorem except_bind_ne_ok {ε α β : Type} (x : Except ε α) (f : α → Except ε β)
    (g : β) (hf : ∀ a, f a ≠ Except.ok g) : x >>= f ≠ Except.ok g := by
  cases x with
  | error e => simp [Bind.bind, Except.bind]
  | ok a => simpa [Bind.bind, Except.bind] using hf a

/-- `GenericTypeOptions.__init__` cannot return a constructed node: every
control path that survives the earlier setters reaches the
`show_checkbox` assignment, which raises. -/
theorem GTO_init_ne_ok (kw : GTOKwargs) (g : GenericTypeOptions) :
    GenericTypeOptions.init kw ≠ Except.ok g := by
  unfold GenericTypeOptions.init
  repeat refine except_bind_ne_ok _ _ _ (fun _ => ?_)
  simp

/-- C6: `GenericTypeOptions.from_dict` cannot return a node for any input,
valid ones included — `__init__` assigns the `show_checkbox` property,
which declares no setter, so construction raises `AttributeError` — and at
the empty mapping (a mapping of valid inputs) the call fails with exactly
that error, where the claim promises a fully validated node without
raising. -/
theorem C6_from_dict_always_raises :
    (GenericTypeOptions.from_dict []).1 =
      Except.error (PyErr.attributeError
        "property show_checkbox of GenericTypeOptions object has no setter") ∧
    ∀ d : List (String × Val), ∃ e,
      (GenericTypeOptions.from_dict d).1 = Except.error e := by
  constructor
  · rfl
  · intro d
    cases h : (GenericTypeOptions.from_dict d).1 with
    | ok g =>
        exact absurd h (by
          have hne := GTO_init_ne_ok (GenericTypeOptions.get_kwargs_from_dict d).1 g
          simpa [GenericTypeOptions.from_dict] using hne)
    | error e => exact ⟨e, rfl⟩

end HC

namespace HC

/-- Membership of a key among a list of declared keys. -/
def keyIn (ks : List String) (x : String) : Bool :=
  ks.any (fun a => x == a)

theorem popD_snd_of_nodup (key : String) (dflt : Val) :
    ∀ d : List (String × Val), (d.map Prod.fst).Nodup →
      (popD key dflt d).2 = d.filter (fun kv => kv.1 != key)
  | [], _ => rfl
  | (k, v) :: rest, h => by
      simp only [List.map_cons, List.nodup_cons] at h
      by_cases hk : k = key
      · subst hk
        have hres : rest.filter (fun kv => kv.1 != k) = rest := by
          apply List.filter_eq_self.mpr
          intro kv hm
          have hne : kv.1 ≠ k := by
            intro he
            exact h.1 (he ▸ List.mem_map_of_mem Prod.fst hm)
          simpa using hne
        simp [popD, List.filter_cons, hres]
      · have ih := popD_snd_of_nodup key dflt rest h.2
        simp [popD, hk, ih, List.filter_cons]

theorem nodup_keys_filter (p : String × Val → Bool) {d : List (String × Val)}
    (h : (d.map Prod.fst).Nodup) : ((d.filter p).map Prod.fst).Nodup :=
  List.Nodup.sublist (List.Sublist.map Prod.fst (List.filter_sublist d)) h

/-- Popping each of a list of keys in turn out of a mapping, keeping the
residual mapping. -/
def popAll (ks : List String) (d : List (String × Val)) : List (String × Val) :=
  ks.foldl (fun acc k => (popD k Val.none acc).2) d

theorem popAll_residual :
    ∀ (ks : List String) (d : List (String × Val)), (d.map Prod.fst).Nodup →
      popAll ks d = d.filter (fun kv => !(keyIn ks kv.1))
  | [], d, _ => by simp [popAll, keyIn]
  | k :: rest, d, h => by
      have h1 := popD_snd_of_nodup k Val.none d h
      have hn : (((popD k Val.none d).2).map Prod.fst).Nodup := by
        rw [h1]; exact nodup_keys_filter _ h
      have ih := popAll_residual rest ((popD k Val.none d).2) hn
      have hstep : popAll (k :: rest) d = popAll rest ((popD k Val.none d).2) := by
        simp [popAll]
      rw [hstep, ih, h1, List.filter_filter]
      apply List.filter_congr
      intro kv _
      simp [keyIn, Bool.not_or, bne, Bool.and_comm]

end HC

namespace HC

/-- C8 counterexample: `AxisMarker.from_dict` pops the declared keys out of
its argument — called on the single-entry mapping `width ↦ 5`, it leaves
the mapping empty, so the argument does not keep the entries it held
before the call. -/
theorem C8_counterexample_argument_mutated :
    (AxisMarker.from_dict [("width", Val.num 5)]).2 = [] ∧
    ([("width", Val.num 5)] : List (String × Val)) ≠ [] :=
  ⟨rfl, by simp⟩

/-- C8 amended: `from_dict` does mutate its argument, in exactly one way —
it pops every declared external key, so on a mapping with pairwise
distinct keys the mapping after the call consists, in order, of precisely
the entries whose key is undeclared (for `AxisMarker`: neither animation,
color nor width; for `PaneBackground`: none of its seven external keys);
apart from this consumption of its argument, parsing only produces the new
node. -/
theorem C8_from_dict_pops_declared_keys (d : List (String × Val))
    (h : (d.map Prod.fst).Nodup) :
    (AxisMarker.from_dict d).2 =
      d.filter (fun kv => !(keyIn ["animation", "color", "width"] kv.1)) ∧
    (PaneBackground.from_dict d).2 =
      d.filter (fun kv => !(keyIn ["backgroundColor", "borderColor",
        "borderWidth", "className", "innerRadius", "outerRadius", "shape"] kv.1)) := by
  constructor
  · have hres := popAll_residual ["animation", "color", "width"] d h
    simpa [popAll, AxisMarker.from_dict] using hres
  · have hres := popAll_residual ["backgroundColor", "borderColor",
      "borderWidth", "className", "innerRadius", "outerRadius", "shape"] d h
    simpa [popAll, PaneBackground.from_dict] using hres

/-- Witness for C8 on a concrete two-entry mapping with distinct keys: the
declared `width` entry is consumed, the undeclared `custom` entry
survives. -/
theorem C8_from_dict_pops_declared_keys_witness :
    ((([("width", Val.num 5), ("custom", Val.str "x")] :
        List (String × Val))).map Prod.fst).Nodup ∧
    (AxisMarker.from_dict [("width", Val.num 5), ("custom", Val.str "x")]).2 =
      [("custom", Val.str "x")] := by
  have hnd : ((([("width", Val.num 5), ("custom", Val.str "x")] :
      List (String × Val))).map Prod.fst).Nodup := by
    simp
  refine ⟨hnd, ?_⟩
  rw [(C8_from_dict_pops_declared_keys _ hnd).1]
  rfl

end HC

namespace HC

theorem isEmpty_false_of_ne_nil {α : Type} {l : List α} (h : l ≠ []) :
    l.isEmpty = false := by
  cases l with
  | nil => exact absurd rfl h
  | cons a t => rfl

theorem popD_absent (key : String) (dflt : Val) :
    ∀ d, hasKey d key = false → popD key dflt d = (dflt, d)
  | [], _ => rfl
  | (k, v) :: rest, h => by
      simp only [hasKey, List.any_cons] at h
      have h2 := h
      rw [Bool.or_eq_false_iff] at h2
      have hk : ¬ k = key := by simpa using h2.1
      have ih := popD_absent key dflt rest (by simpa [hasKey] using h2.2)
      simp [popD, hk, ih]

theorem hasKey_trimEntries_false (key : String) :
    ∀ d, hasKey d key = false → hasKey (trimEntries d) key = false
  | [], _ => rfl
  | (k, v) :: rest, h => by
      simp only [hasKey, List.any_cons] at h
      rw [Bool.or_eq_false_iff] at h
      have ih := hasKey_trimEntries_false key rest (by simpa [hasKey] using h.2)
      by_cases he : isEmptyVal (trimInner v)
      · simpa [trimEntries, he] using ih
      · simpa [trimEntries, he, hasKey, List.any_cons, h.1] using ih

/-- The value `from_dict` gets back for one slot after serialization: the
trimmed value when trim kept the entry, the pop default `None` when trim
dropped it. -/
def extract (v : Val) : Val :=
  if isEmptyVal (trimInner v) then Val.none else trimInner v

theorem popD_trimEntries_head (key : String) (v : Val)
    (rest : List (String × Val)) (h : hasKey rest key = false) :
    popD key Val.none (trimEntries ((key, v) :: rest)) =
      (extract v, trimEntries rest) := by
  have hr := hasKey_trimEntries_false key rest h
  by_cases he : isEmptyVal (trimInner v)
  · simp [trimEntries, he, extract, popD_absent key Val.none _ hr]
  · simp [trimEntries, he, extract, popD]

/-- A stored polymorphic-color slot value as the coercive setter leaves it
from valid external input: unset, a non-empty discriminated color string,
or a `Gradient` / `Pattern` whose state mapping is non-empty, already
trimmed, and carries its discriminator key, as the mappings built by the
factories from external input do. -/
def ValidColor : Val → Prop
  | Val.none => True
  | Val.str s => s ≠ "" ∧ (containsSub s "linearGradient" = true ∨
      (containsSub s "linearGradient" = false ∧
       containsSub s "patternOptions" = true))
  | Val.gradient d => trimEntries d = d ∧ d ≠ [] ∧
      hasKey d "linearGradient" = true
  | Val.pattern d => trimEntries d = d ∧ d ≠ [] ∧
      hasKey d "patternOptions" = true ∧ hasKey d "linearGradient" = false ∧
      hasKey d "linear_gradient" = false
  | _ => False

/-- A stored numeric slot value: unset or a number. -/
def ValidNumeric : Val → Prop
  | Val.none => True
  | Val.num _ => True
  | _ => False

/-- A stored string slot value: unset or a non-empty string (the setter
turns the empty string into unset). -/
def ValidStr : Val → Prop
  | Val.none => True
  | Val.str s => s ≠ ""
  | _ => False

/-- A stored numeric-or-percentage slot value: unset, a non-empty string
or a number. -/
def ValidRadius : Val → Prop
  | Val.none => True
  | Val.str s => s ≠ ""
  | Val.num _ => True
  | _ => False

/-- A stored shape slot value: unset or one of the three allowed
lowercase shape names. -/
def ValidShape : Val → Prop
  | Val.none => True
  | Val.str s => s = "circle" ∨ s = "solid" ∨ s = "arc"
  | _ => False

/-- A stored animation slot value: unset, the literal `False`, or an
`AnimationOptions` whose state mapping is non-empty and already
trimmed. -/
def ValidAnim : Val → Prop
  | Val.none => True
  | Val.bool b => b = false
  | Val.anim d => trimEntries d = d ∧ d ≠ []
  | _ => False

theorem resolveColor_extract {v : Val} (h : ValidColor v) :
    resolveColor (extract v) = Except.ok v := by
  match v with
  | Val.none => rfl
  | Val.str s =>
      obtain ⟨hs, hd⟩ := h
      have hext : extract (Val.str s) = Val.str s := rfl
      rw [hext]
      have hf : falsy (Val.str s) = false := by simpa [falsy] using hs
      rcases hd with hlin | ⟨hlin, hpat⟩
      · simp [resolveColor, hf, hlin, Gradient.from_json, isValueError,
          validators.string, hs]
      · simp [resolveColor, hf, hlin, hpat, Pattern.from_json, isValueError,
          validators.string, hs]
  | Val.gradient d =>
      obtain ⟨ht, hne, hk⟩ := h
      have hext : extract (Val.gradient d) = Val.dict d := by
        simp [extract, trimInner, isEmptyVal, ht, isEmpty_false_of_ne_nil hne]
      rw [hext]
      have hf : falsy (Val.dict d) = false := by
        simp [falsy, isEmpty_false_of_ne_nil hne]
      simp [resolveColor, hf, hk, Gradient.from_json, Gradient.from_dict,
        isValueError]
  | Val.pattern d =>
      obtain ⟨ht, hne, hp, hl, hlg⟩ := h
      have hext : extract (Val.pattern d) = Val.dict d := by
        simp [extract, trimInner, isEmptyVal, ht, isEmpty_false_of_ne_nil hne]
      rw [hext]
      have hf : falsy (Val.dict d) = false := by
        simp [falsy, isEmpty_false_of_ne_nil hne]
      simp [resolveColor, hf, hp, hl, hlg, Pattern.from_json,
        Pattern.from_dict, isValueError]

theorem numeric_extract {v : Val} (h : ValidNumeric v) :
    validators.numeric true (extract v) = Except.ok v := by
  match v with
  | Val.none => rfl
  | Val.num q => rfl

theorem string_extract {v : Val} (h : ValidStr v) :
    validators.string true (extract v) = Except.ok v := by
  match v with
  | Val.none => rfl
  | Val.str s =>
      have hs : s ≠ "" := h
      simp [extract, trimInner, isEmptyVal, validators.string, hs]

theorem radius_extract {v : Val} (h : ValidRadius v) :
    radiusSetter (extract v) = Except.ok v := by
  match v with
  | Val.none => rfl
  | Val.num q => rfl
  | Val.str s =>
      have hs : s ≠ "" := h
      simp [extract, trimInner, isEmptyVal, radiusSetter, hs,
        tryStringThenNumeric, validators.string]

theorem shape_extract {v : Val} (h : ValidShape v) :
    shapeSetter (extract v) = Except.ok v := by
  match v with
  | Val.none => rfl
  | Val.str s => rcases h with h | h | h <;> subst h <;> rfl

theorem anim_extract {v : Val} (h : ValidAnim v) :
    animationSetter (extract v) = Except.ok v := by
  match v with
  | Val.none => rfl
  | Val.bool b =>
      have hb : b = false := h
      subst hb
      rfl
  | Val.anim d =>
      obtain ⟨ht, hne⟩ := h
      have hext : extract (Val.anim d) = Val.dict d := by
        simp [extract, trimInner, isEmptyVal, ht, isEmpty_false_of_ne_nil hne]
      rw [hext]
      rfl

/-- Validity of every slot of a `PaneBackground`: each holds a value its
coercive setter can produce from valid input and that survives
serialization. -/
def ValidPB (pb : PaneBackground) : Prop :=
  ValidColor pb.background_color ∧ ValidColor pb.border_color ∧
  ValidNumeric pb.border_width ∧ ValidStr pb.class_name ∧
  ValidRadius pb.inner_radius ∧ ValidRadius pb.outer_radius ∧
  ValidShape pb.shape

/-- Validity of every slot of an `AxisMarker`. -/
def ValidAM (m : AxisMarker) : Prop :=
  ValidAnim m.animation ∧ ValidColor m.color ∧ ValidNumeric m.width

theorem AM_roundtrip (m : AxisMarker) (h : ValidAM m) :
    AxisMarker.from_dict (AxisMarker.to_dict m) = (Except.ok m, []) := by
  obtain ⟨a, c, w⟩ := m
  obtain ⟨ha, hc, hw⟩ := h
  have h1 : popD "animation" Val.none
      (trimEntries [("animation", a), ("color", c), ("width", w)]) =
      (extract a, trimEntries [("color", c), ("width", w)]) :=
    popD_trimEntries_head _ _ _ (by simp [hasKey])
  have h2 : popD "color" Val.none (trimEntries [("color", c), ("width", w)]) =
      (extract c, trimEntries [("width", w)]) :=
    popD_trimEntries_head _ _ _ (by simp [hasKey])
  have h3 : popD "width" Val.none (trimEntries [("width", w)]) =
      (extract w, trimEntries []) :=
    popD_trimEntries_head _ _ _ (by simp [hasKey])
  simp only [AxisMarker.from_dict, AxisMarker.to_dict,
    AxisMarker.to_untrimmed_dict]
  rw [h1, h2, h3]
  simp [AxisMarker.init, anim_extract ha, resolveColor_extract hc,
    numeric_extract hw, Bind.bind, Except.bind, trimEntries]

theorem PB_roundtrip (pb : PaneBackground) (h : ValidPB pb) :
    PaneBackground.from_dict (PaneBackground.to_dict pb) =
      (Except.ok pb, []) := by
  obtain ⟨bg, bc, bw, cn, ir, orr, sh⟩ := pb
  obtain ⟨hbg, hbc, hbw, hcn, hir, horr, hsh⟩ := h
  have h1 : popD "backgroundColor" Val.none
      (trimEntries [("backgroundColor", bg), ("borderColor", bc),
        ("borderWidth", bw), ("className", cn), ("innerRadius", ir),
        ("outerRadius", orr), ("shape", sh)]) =
      (extract bg, trimEntries [("borderColor", bc), ("borderWidth", bw),
        ("className", cn), ("innerRadius", ir), ("outerRadius", orr),
        ("shape", sh)]) :=
    popD_trimEntries_head _ _ _ (by simp [hasKey])
  have h2 : popD "borderColor" Val.none
      (trimEntries [("borderColor", bc), ("borderWidth", bw),
        ("className", cn), ("innerRadius", ir), ("outerRadius", orr),
        ("shape", sh)]) =
      (extract bc, trimEntries [("borderWidth", bw), ("className", cn),
        ("innerRadius", ir), ("outerRadius", orr), ("shape", sh)]) :=
    popD_trimEntries_head _ _ _ (by simp [hasKey])
  have h3 : popD "borderWidth" Val.none
      (trimEntries [("borderWidth", bw), ("className", cn),
        ("innerRadius", ir), ("outerRadius", orr), ("shape", sh)]) =
      (extract bw, trimEntries [("className", cn), ("innerRadius", ir),
        ("outerRadius", orr), ("shape", sh)]) :=
    popD_trimEntries_head _ _ _ (by simp [hasKey])
  have h4 : popD "className" Val.none
      (trimEntries [("className", cn), ("innerRadius", ir),
        ("outerRadius", orr), ("shape", sh)]) =
      (extract cn, trimEntries [("innerRadius", ir), ("outerRadius", orr),
        ("shape", sh)]) :=
    popD_trimEntries_head _ _ _ (by simp [hasKey])
  have h5 : popD "innerRadius" Val.none
      (trimEntries [("innerRadius", ir), ("outerRadius", orr),
        ("shape", sh)]) =
      (extract ir, trimEntries [("outerRadius", orr), ("shape", sh)]) :=
    popD_trimEntries_head _ _ _ (by simp [hasKey])
  have h6 : popD "outerRadius" Val.none
      (trimEntries [("outerRadius", orr), ("shape", sh)]) =
      (extract orr, trimEntries [("shape", sh)]) :=
    popD_trimEntries_head _ _ _ (by simp [hasKey])
  have h7 : popD "shape" Val.none (trimEntries [("shape", sh)]) =
      (extract sh, trimEntries []) :=
    popD_trimEntries_head _ _ _ (by simp [hasKey])
  simp only [PaneBackground.from_dict, PaneBackground.to_dict]
  rw [h1, h2, h3, h4, h5, h6, h7]
  simp [PaneBackground.init, resolveColor_extract hbg, resolveColor_extract hbc,
    numeric_extract hbw, string_extract hcn, radius_extract hir,
    radius_extract horr, shape_extract hsh, Bind.bind, Except.bind, trimEntries]

/-- C1: round-trip — for every `PaneBackground` and every `AxisMarker`
whose slots were produced by their coercive setters from valid inputs,
`from_dict` applied to `to_dict` reconstructs a node equal to the original
on every declared slot; slots holding the unset sentinel before trimming
stay unset after the round trip, and the serialized mapping is consumed
whole. -/
theorem C1_round_trip (pb : PaneBackground) (m : AxisMarker)
    (hpb : ValidPB pb) (hm : ValidAM m) :
    PaneBackground.from_dict (PaneBackground.to_dict pb) =
      (Except.ok pb, []) ∧
    AxisMarker.from_dict (AxisMarker.to_dict m) = (Except.ok m, []) :=
  ⟨PB_roundtrip pb hpb, AM_roundtrip m hm⟩

/-- The `PaneBackground` of the C1 witness: a gradient background, an
unset border color, border width 0, a class name, a percentage inner
radius, a numeric outer radius and the `arc` shape. -/
def pbExample : PaneBackground :=
  ⟨Val.gradient [("linearGradient", Val.bool true)], Val.none, Val.num 0,
   Val.str "pane-bg", Val.str "50%", Val.num 50, Val.str "arc"⟩

/-- The `AxisMarker` of the C1 witness: animation disabled, a pattern
color, width 0.01. -/
def amExample : AxisMarker :=
  ⟨Val.bool false, Val.pattern [("patternOptions", Val.num 0)], Val.num 0.01⟩

/-- Witness for C1 at the two concrete nodes. -/
theorem C1_round_trip_witness :
    ValidPB pbExample ∧ ValidAM amExample ∧
    PaneBackground.from_dict (PaneBackground.to_dict pbExample) =
      (Except.ok pbExample, []) ∧
    AxisMarker.from_dict (AxisMarker.to_dict amExample) =
      (Except.ok amExample, []) := by
  have hpb : ValidPB pbExample :=
    ⟨⟨rfl, by simp, rfl⟩, trivial, trivial,
      (by decide : ("pane-bg" : String) ≠ ""),
      (by decide : ("50%" : String) ≠ ""), trivial, Or.inr (Or.inr rfl)⟩
  have ham : ValidAM amExample :=
    ⟨rfl, ⟨rfl, by simp, rfl, rfl, rfl⟩, trivial⟩
  have hrt := C1_round_trip pbExample amExample hpb ham
  exact ⟨hpb, ham, hrt.1, hrt.2⟩

end HC
